import Mathlib

/-!
Verification of the WeChat credential-exchange client (`WeChatService` in the
repository `mihui/wechat-cloud`) against its natural-language specification.

The development shallowly embeds the two source files:

* `src/unnamed/part_000` — the `WeChatService` class with the five operations
  `obtainAccessToken`, `obtainTelephone`, `obtainOpenId`, `verifySession`,
  `fetchUser`;
* `src/modules/vars.js` — the `VARS` configuration object.

The service imports three modules whose sources are not part of the
repository snapshot (`modules/utility.js`, `http-manager.js`,
`models/wechat.js`); those are modelled from the specification and are marked
as such in their doc comments.

Each operation is embedded as a pure function from its arguments and the
outcome of the single underlying `axios` transport call to a pair of
(result or raised error, list of outbound HTTP requests issued).  JavaScript
`undefined` values are modelled by `Option`, thrown errors by an explicit
`Except`, and template-literal interpolation of a possibly-undefined value by
`jsShow`.
-/

namespace WeChatCloud

/-! ## Bytes, UTF-8, and hex encoding -/

/-- The modulus of 32-bit words. -/
def w32 : Nat := 4294967296

/-- UTF-8 encoding of a single Unicode code point, as a list of byte values. -/
def utf8EncodeChar (c : Nat) : List Nat :=
  if c < 128 then [c]
  else if c < 2048 then
    [192 ||| (c >>> 6), 128 ||| (c &&& 63)]
  else if c < 65536 then
    [224 ||| (c >>> 12), 128 ||| ((c >>> 6) &&& 63), 128 ||| (c &&& 63)]
  else
    [240 ||| (c >>> 18), 128 ||| ((c >>> 12) &&& 63),
     128 ||| ((c >>> 6) &&& 63), 128 ||| (c &&& 63)]

/-- The UTF-8 bytes of a string (Node.js strings are hashed as UTF-8). -/
def strBytes (s : String) : List Nat :=
  List.flatMap s.data (fun c => utf8EncodeChar c.toNat)

/-- Lower-case hexadecimal digit for a value below 16. -/
def hexDigitChar (n : Nat) : Char :=
  if n < 10 then Char.ofNat (48 + n) else Char.ofNat (87 + n)

/-- Lower-case hexadecimal rendering of a byte list. -/
def hexOfBytes (bs : List Nat) : String :=
  String.mk (List.flatMap bs (fun b => [hexDigitChar (b / 16), hexDigitChar (b % 16)]))

/-! ## SHA-256 -/

/-- Right rotation of a 32-bit word. -/
def rotr32 (n x : Nat) : Nat :=
  ((x >>> n) ||| (x <<< (32 - n))) % w32

/-- SHA-256 `Ch` function. -/
def sha2Ch (x y z : Nat) : Nat := (x &&& y) ^^^ ((x ^^^ 4294967295) &&& z)

/-- SHA-256 `Maj` function. -/
def sha2Maj (x y z : Nat) : Nat := (x &&& y) ^^^ (x &&& z) ^^^ (y &&& z)

/-- SHA-256 Σ₀. -/
def bigSigma0 (x : Nat) : Nat := rotr32 2 x ^^^ rotr32 13 x ^^^ rotr32 22 x

/-- SHA-256 Σ₁. -/
def bigSigma1 (x : Nat) : Nat := rotr32 6 x ^^^ rotr32 11 x ^^^ rotr32 25 x

/-- SHA-256 σ₀. -/
def smallSigma0 (x : Nat) : Nat := rotr32 7 x ^^^ rotr32 18 x ^^^ (x >>> 3)

/-- SHA-256 σ₁. -/
def smallSigma1 (x : Nat) : Nat := rotr32 17 x ^^^ rotr32 19 x ^^^ (x >>> 10)

/-- The 64 SHA-256 round constants (FIPS 180-4 §4.2.2), written in decimal. -/
def sha2K : List Nat :=
  [1116352408, 1899447441, 3049323471, 3921009573, 961987163, 1508970993,
   2453635748, 2870763221, 3624381080, 310598401, 607225278, 1426881987,
   1925078388, 2162078206, 2614888103, 3248222580, 3835390401, 4022224774,
   264347078, 604807628, 770255983, 1249150122, 1555081692, 1996064986,
   2554220882, 2821834349, 2952996808, 3210313671, 3336571891, 3584528711,
   113926993, 338241895, 666307205, 773529912, 1294757372, 1396182291,
   1695183700, 1986661051, 2177026350, 2456956037, 2730485921, 2820302411,
   3259730800, 3345764771, 3516065817, 3600352804, 4094571909, 275423344,
   430227734, 506948616, 659060556, 883997877, 958139571, 1322822218,
   1537002063, 1747873779, 1955562222, 2024104815, 2227730452, 2361852424,
   2428436474, 2756734187, 3204031479, 3329325298]

/-- The SHA-256 initial hash value (FIPS 180-4 §5.3.3), written in decimal. -/
def sha2H0 : List Nat :=
  [1779033703, 3144134277, 1013904242, 2773480762,
   1359893119, 2600822924, 528734635, 1541459225]

/-- Working state of one SHA-256 compression. -/
structure Sha2State where
  a : Nat
  b : Nat
  c : Nat
  d : Nat
  e : Nat
  f : Nat
  g : Nat
  h : Nat
deriving Repr, DecidableEq

/-- One SHA-256 round; `kw` is the sum of the round constant and the
schedule word. -/
def sha2Round (s : Sha2State) (kw : Nat) : Sha2State :=
  let t1 := (s.h + bigSigma1 s.e + sha2Ch s.e s.f s.g + kw) % w32
  let t2 := (bigSigma0 s.a + sha2Maj s.a s.b s.c) % w32
  ⟨(t1 + t2) % w32, s.a, s.b, s.c, (s.d + t1) % w32, s.e, s.f, s.g⟩

/-- Extend a 16-word block by `fuel` further schedule words. -/
def extendSchedule (w : List Nat) (fuel : Nat) : List Nat :=
  match fuel with
  | 0 => w
  | Nat.succ f =>
      let i := w.length
      let next := (smallSigma1 (w.getD (i - 2) 0) + w.getD (i - 7) 0 +
                   smallSigma0 (w.getD (i - 15) 0) + w.getD (i - 16) 0) % w32
      extendSchedule (w ++ [next]) f

/-- Compress one 16-word block into a running 8-word hash value. -/
def sha2Compress (hv : List Nat) (block : List Nat) : List Nat :=
  let w := extendSchedule block 48
  let s0 : Sha2State :=
    ⟨hv.getD 0 0, hv.getD 1 0, hv.getD 2 0, hv.getD 3 0,
     hv.getD 4 0, hv.getD 5 0, hv.getD 6 0, hv.getD 7 0⟩
  let s1 := (List.zip sha2K w).foldl (fun s p => sha2Round s ((p.1 + p.2) % w32)) s0
  [(hv.getD 0 0 + s1.a) % w32, (hv.getD 1 0 + s1.b) % w32,
   (hv.getD 2 0 + s1.c) % w32, (hv.getD 3 0 + s1.d) % w32,
   (hv.getD 4 0 + s1.e) % w32, (hv.getD 5 0 + s1.f) % w32,
   (hv.getD 6 0 + s1.g) % w32, (hv.getD 7 0 + s1.h) % w32]

/-- Big-endian bytes of `n`, `k` bytes wide. -/
def bytesBE (k n : Nat) : List Nat :=
  (List.range k).map (fun i => (n >>> (8 * (k - 1 - i))) &&& 255)

/-- SHA-256 padding: append `0x80`, zeros, and the 64-bit big-endian bit
length, reaching a multiple of 64 bytes. -/
def sha2Pad (msg : List Nat) : List Nat :=
  let zeros := (119 - msg.length % 64) % 64
  msg ++ [128] ++ List.replicate zeros 0 ++ bytesBE 8 (msg.length * 8)

/-- Pack bytes into big-endian 32-bit words. -/
def bytesToWords : List Nat → List Nat
  | b0 :: b1 :: b2 :: b3 :: rest =>
      ((b0 <<< 24) + (b1 <<< 16) + (b2 <<< 8) + b3) :: bytesToWords rest
  | _ => []

/-- Compress `n` consecutive 16-word blocks. -/
def sha2Blocks (hv : List Nat) (ws : List Nat) (n : Nat) : List Nat :=
  match n with
  | 0 => hv
  | Nat.succ k => sha2Blocks (sha2Compress hv (ws.take 16)) (ws.drop 16) k

/-- SHA-256 of a byte list, as the 32 digest bytes. -/
def sha256 (msg : List Nat) : List Nat :=
  let padded := sha2Pad msg
  let hv := sha2Blocks sha2H0 (bytesToWords padded) (padded.length / 64)
  List.flatMap hv (fun wrd => [(wrd >>> 24) &&& 255, (wrd >>> 16) &&& 255, (wrd >>> 8) &&& 255, wrd &&& 255])

/-- HMAC-SHA256 with byte-list key and message, as the 32 digest bytes. -/
def hmacSha256 (key msg : List Nat) : List Nat :=
  let k0 := if 64 < key.length then sha256 key else key
  let kPad := k0 ++ List.replicate (64 - k0.length) 0
  let ipadKey := kPad.map (fun b => b ^^^ 54)
  let opadKey := kPad.map (fun b => b ^^^ 92)
  sha256 (opadKey ++ sha256 (ipadKey ++ msg))

namespace utilityService

/-- Modelled from the spec: `utilityService.sign` lives in
`modules/utility.js`, which is not part of the repository snapshot (only its
call sites in `WeChatService` are).  Per §4.1 of the spec it "computes an HMAC
using SHA-256 over `message` keyed by `key`, returns a deterministic digest
encoding (hex)"; pure, stateless, no I/O. -/
def sign (message key : String) : String :=
  hexOfBytes (hmacSha256 (strBytes key) (strBytes message))

end utilityService

/-! ## The error model (`http-manager.js`) -/

/-- A JavaScript error value, as far as this layer observes it.  `transport`
stands for an arbitrary error rejected by the `axios` transport, `typeError`
for a runtime `TypeError` raised inside the handler, and `httpError` for the
error objects produced by `httpError(...)` of `http-manager.js`. -/
inductive JsError where
  | transport (info : String)
  | typeError (info : String)
  | httpError (status : Nat) (message : String) (cause : Option JsError)

namespace httpCodes

/-- Modelled from the spec: `httpCodes.OK` from `http-manager.js`, absent from
the snapshot; the standard HTTP 200 status the spec calls "OK". -/
def OK : Nat := 200

/-- Modelled from the spec: `httpCodes.BAD_REQUEST` from `http-manager.js`,
absent from the snapshot; the standard HTTP 400 status behind the spec's
single "bad request" failure kind. -/
def BAD_REQUEST : Nat := 400

end httpCodes

namespace httpMessages

/-- Modelled from the spec: `httpMessages.BAD_REQUEST` from
`http-manager.js`, absent from the snapshot; the reason phrase of the uniform
bad-request failure. -/
def BAD_REQUEST : String := "Bad Request"

end httpMessages

/-- Modelled from the spec: `httpError(status, message, cause?)` from
`http-manager.js`, absent from the snapshot; builds the single failure kind
of §7, "a single 'bad request' failure kind [that] wraps all remote-call
failures ... carrying the triggering cause for diagnostics". -/
def httpError (status : Nat) (message : String) (cause : Option JsError) : JsError :=
  JsError.httpError status message cause

/-! ## Configuration (`src/modules/vars.js`) -/

/-- The process environment as `vars.js` reads it: each variable is present
(`some`) or absent (`none`). -/
structure ProcessEnv where
  IOT_API_ENDPOINT : Option String
  IOT_CLIENT_ID : Option String
  IOT_CLIENT_SECRET : Option String

/-- Property access on the `VARS` object of `src/modules/vars.js`.  The
object literal defines exactly `APP_CONTEXT` and the three `IOT_*` fields;
reading any other property name yields JavaScript `undefined`, i.e. `none`. -/
def VARS (env : ProcessEnv) (name : String) : Option String :=
  match name with
  | "APP_CONTEXT" => some ""
  | "IOT_API_ENDPOINT" => some (env.IOT_API_ENDPOINT.getD "https://openapi.tuyacn.com")
  | "IOT_CLIENT_ID" => some (env.IOT_CLIENT_ID.getD "")
  | "IOT_CLIENT_SECRET" => some (env.IOT_CLIENT_SECRET.getD "")
  | _ => none

/-- Interpolation of a possibly-`undefined` string into a JavaScript template
literal: `undefined` renders as the literal text `"undefined"`. -/
def jsShow (v : Option String) : String :=
  match v with
  | some s => s
  | none => "undefined"

/-! ## Payload models (`models/wechat.js`) -/

/-- Modelled from the spec: `WeChatPayloadBase` from `models/wechat.js`,
absent from the snapshot; the generic payload with optional remote error
code/message fields (§3). -/
structure WeChatPayloadBase where
  errcode : Option Int
  errmsg : Option String
deriving Repr, DecidableEq

/-- Modelled from the spec: `WeChatPayloadToken` from `models/wechat.js`,
absent from the snapshot; "token string, expiry seconds, error code/message
(optional)" (§3). -/
structure WeChatPayloadToken where
  access_token : Option String
  expires_in : Option Int
  errcode : Option Int
  errmsg : Option String
deriving Repr, DecidableEq

/-- Modelled from the spec: `WeChatPayloadOpenId` from `models/wechat.js`,
absent from the snapshot; "open identifier, union identifier (optional),
session key, error code/message" (§3). -/
structure WeChatPayloadOpenId where
  openid : Option String
  unionid : Option String
  session_key : Option String
  errcode : Option Int
  errmsg : Option String
deriving Repr, DecidableEq

/-- Modelled from the spec: `WeChatPayloadPhone` from `models/wechat.js`,
absent from the snapshot; "phone number, pure phone number, country code,
watermark metadata" (§3) plus the optional error fields. -/
structure WeChatPayloadPhone where
  phoneNumber : Option String
  purePhoneNumber : Option String
  countryCode : Option String
  watermark : Option String
  errcode : Option Int
  errmsg : Option String
deriving Repr, DecidableEq

/-- Modelled from the spec: one entry of the key-info list of
`WeChatPayloadEncryptedKey`, "each containing an encrypted key blob" (§3). -/
structure WeChatKeyInfo where
  encrypt_key : String
  version : Nat
deriving Repr, DecidableEq

/-- Modelled from the spec: `WeChatPayloadEncryptedKey` from
`models/wechat.js`, absent from the snapshot; "list of key-info entries ...,
error fields" (§3).  The list itself may be absent from the remote JSON
(`none` = JavaScript `undefined`). -/
structure WeChatPayloadEncryptedKey where
  key_info_list : Option (List WeChatKeyInfo)
  errcode : Option Int
  errmsg : Option String
deriving Repr, DecidableEq

/-! ## Transport model (`axios`) -/

/-- An HTTP method as the embedded requests use it. -/
inductive HttpMethod where
  | get
  | post
deriving Repr, DecidableEq

/-- One outbound HTTP request as `WeChatService` shapes it: method, full URL
(query string included), optional JSON object body given as its ordered
fields, and headers. -/
structure HttpRequest where
  method : HttpMethod
  url : String
  body : Option (List (String × String))
  headers : List (String × String)
deriving Repr, DecidableEq

/-- A resolved `axios` response: transport status and parsed JSON data. -/
structure AxiosResponse (α : Type) where
  status : Nat
  data : α
deriving Repr, DecidableEq

/-- The outcome of one `await axios(...)` call: either the promise resolves
with a response, or it rejects with an error (network failure, non-2xx
status per the default `validateStatus`, parse failure, ...). -/
inductive TransportOutcome (α : Type) where
  | resolve (response : AxiosResponse α)
  | reject (error : JsError)

/-- The result of one operation: the value returned or the error thrown,
paired with the list of outbound HTTP requests the operation issued. -/
def OpResult (α : Type) : Type := Except JsError α × List HttpRequest

/-! ## The five operations of `WeChatService` (`src/unnamed/part_000`)

Each embedding builds the request URL exactly as the template literal in the
source does, issues the single `axios` call (recorded in the request list),
and mirrors the `try`/`catch` translation of failures. -/

/-- `WeChatService.obtainAccessToken` (part_000 lines 14–30). -/
def obtainAccessToken (env : ProcessEnv)
    (transport : TransportOutcome WeChatPayloadToken) : OpResult WeChatPayloadToken :=
  let requestUrl := "https://api.weixin.qq.com/cgi-bin/token?grant_type=client_credential&appid="
    ++ jsShow (VARS env "APP_ID") ++ "&secret=" ++ jsShow (VARS env "APP_SECRET")
  let req : HttpRequest := ⟨.get, requestUrl, none, [("Content-Type", "application/json")]⟩
  let result : Except JsError WeChatPayloadToken :=
    match transport with
    | .resolve response => .ok response.data
    | .reject error =>
        .error (httpError httpCodes.BAD_REQUEST httpMessages.BAD_REQUEST (some error))
  (result, [req])

/-- `WeChatService.obtainTelephone` (part_000 lines 39–59). -/
def obtainTelephone (accessToken code openid : String)
    (transport : TransportOutcome WeChatPayloadPhone) : OpResult WeChatPayloadPhone :=
  let requestUrl := "https://api.weixin.qq.com/wxa/business/getuserphonenumber?access_token="
    ++ accessToken
  let req : HttpRequest :=
    ⟨.post, requestUrl, some [("code", code), ("openid", openid)],
     [("Content-Type", "application/json")]⟩
  let result : Except JsError WeChatPayloadPhone :=
    match transport with
    | .resolve response => .ok response.data
    | .reject error =>
        .error (httpError httpCodes.BAD_REQUEST httpMessages.BAD_REQUEST (some error))
  (result, [req])

/-- `WeChatService.obtainOpenId` (part_000 lines 66–82). -/
def obtainOpenId (env : ProcessEnv) (code : String)
    (transport : TransportOutcome WeChatPayloadOpenId) : OpResult WeChatPayloadOpenId :=
  let requestUrl := "https://api.weixin.qq.com/sns/jscode2session?appid="
    ++ jsShow (VARS env "APP_ID") ++ "&secret=" ++ jsShow (VARS env "APP_SECRET")
    ++ "&js_code=" ++ code ++ "&grant_type=authorization_code"
  let req : HttpRequest := ⟨.get, requestUrl, none, [("Content-Type", "application/json")]⟩
  let result : Except JsError WeChatPayloadOpenId :=
    match transport with
    | .resolve response => .ok response.data
    | .reject error =>
        .error (httpError httpCodes.BAD_REQUEST httpMessages.BAD_REQUEST (some error))
  (result, [req])

/-- `WeChatService.verifySession` (part_000 lines 92–110, deprecated). -/
def verifySession (openId accessToken sessionKey : String)
    (transport : TransportOutcome WeChatPayloadBase) : OpResult WeChatPayloadBase :=
  let signature := utilityService.sign "" sessionKey
  let requestUrl := "https://api.weixin.qq.com/wxa/checksession?access_token==" ++ accessToken
    ++ "&openid=" ++ openId ++ "&signature=" ++ signature ++ "&sig_method=hmac_sha256"
  let req : HttpRequest := ⟨.get, requestUrl, none, [("Content-Type", "application/json")]⟩
  let result : Except JsError WeChatPayloadBase :=
    match transport with
    | .resolve response => .ok response.data
    | .reject error =>
        .error (httpError httpCodes.BAD_REQUEST httpMessages.BAD_REQUEST (some error))
  (result, [req])

/-- `WeChatService.fetchUser` (part_000 lines 119–143).  On a resolved
response with OK status the handler evaluates
`payload.key_info_list[0]`: when `key_info_list` is absent (JavaScript
`undefined`) this indexing raises a `TypeError`, which the `catch` wraps
into the bad-request error; when the list is present the unguarded read
yields the first element or `undefined`, its value is never used, and the
whole payload is returned.  On a non-OK status the handler throws the
bad-request error inside `try`, so the `catch` wraps that error as the
cause of a second bad-request error. -/
def fetchUser (openId accessToken sessionKey : String)
    (transport : TransportOutcome WeChatPayloadEncryptedKey) :
    OpResult WeChatPayloadEncryptedKey :=
  let signature := utilityService.sign "" sessionKey
  let requestUrl := "https://api.weixin.qq.com/wxa/getuserencryptkey?access_token==" ++ accessToken
    ++ "&openid=" ++ openId ++ "&signature=" ++ signature ++ "&sig_method=hmac_sha256"
  let req : HttpRequest := ⟨.get, requestUrl, none, [("Content-Type", "application/json")]⟩
  let result : Except JsError WeChatPayloadEncryptedKey :=
    match transport with
    | .resolve response =>
        if response.status = httpCodes.OK then
          match response.data.key_info_list with
          | some _ => .ok response.data
          | none =>
              .error (httpError httpCodes.BAD_REQUEST httpMessages.BAD_REQUEST
                (some (JsError.typeError "Cannot read properties of undefined")))
        else
          .error (httpError httpCodes.BAD_REQUEST httpMessages.BAD_REQUEST
            (some (httpError httpCodes.BAD_REQUEST httpMessages.BAD_REQUEST none)))
    | .reject error =>
        .error (httpError httpCodes.BAD_REQUEST httpMessages.BAD_REQUEST (some error))
  (result, [req])

/-! ## Spec-side query-string templates (§6)

These definitions follow the literal templates of §6 of the specification,
to be compared with the URLs the embedded operations construct. -/

/-- Spec §6 template: `GET /cgi-bin/token?grant_type=client_credential&appid=<id>&secret=<secret>`. -/
def specQueryToken (id secret : String) : String :=
  "grant_type=client_credential&appid=" ++ id ++ "&secret=" ++ secret

/-- Spec §6 template: `GET /sns/jscode2session?appid=<id>&secret=<secret>&js_code=<code>&grant_type=authorization_code`. -/
def specQueryJscode2session (id secret code : String) : String :=
  "appid=" ++ id ++ "&secret=" ++ secret ++ "&js_code=" ++ code ++ "&grant_type=authorization_code"

/-- Spec §6 template: `POST /wxa/business/getuserphonenumber?access_token=<token>`
(single `=` after `access_token`). -/
def specQueryGetuserphonenumber (token : String) : String :=
  "access_token=" ++ token

/-- Spec §6 template: `GET /wxa/getuserencryptkey?access_token==<token>&openid=<id>&signature=<sig>&sig_method=hmac_sha256`
(doubled `=` after `access_token`). -/
def specQueryGetuserencryptkey (token id sig : String) : String :=
  "access_token==" ++ token ++ "&openid=" ++ id ++ "&signature=" ++ sig ++ "&sig_method=hmac_sha256"

/-- Spec §6 template: `GET /wxa/checksession?access_token==<token>&openid=<id>&signature=<sig>&sig_method=hmac_sha256`
(doubled `=` after `access_token`). -/
def specQueryChecksession (token id sig : String) : String :=
  "access_token==" ++ token ++ "&openid=" ++ id ++ "&signature=" ++ sig ++ "&sig_method=hmac_sha256"

/-! ## Helpers for stating the claims -/

/-- The URL of the (single) outbound request an operation issued. -/
def issuedUrl {α : Type} (r : OpResult α) : String :=
  (r.2.map HttpRequest.url).headD ""

/-- `s` contains `pat` as a substring. -/
def containsStr (s pat : String) : Prop :=
  ∃ p q, s = p ++ pat ++ q

/-! ## The claims -/

/-- Claim C2: for every call `fetchUser(openId, accessToken, sessionKey)`,
the signature sent in the request equals `sign('', sessionKey)` — the
HMAC-SHA256 of the empty string keyed by the session key — and the request
query includes `access_token`, `openid`, that signature, and the fixed
parameter `sig_method=hmac_sha256`. -/
theorem fetchUser_signature_and_query (openId accessToken sessionKey : String)
    (t : TransportOutcome WeChatPayloadEncryptedKey) :
    utilityService.sign "" sessionKey
        = hexOfBytes (hmacSha256 (strBytes sessionKey) (strBytes "")) ∧
    issuedUrl (fetchUser openId accessToken sessionKey t)
        = "https://api.weixin.qq.com/wxa/getuserencryptkey?access_token==" ++ accessToken
          ++ "&openid=" ++ openId ++ "&signature=" ++ utilityService.sign "" sessionKey
          ++ "&sig_method=hmac_sha256" ∧
    containsStr (issuedUrl (fetchUser openId accessToken sessionKey t))
        ("access_token==" ++ accessToken) ∧
    containsStr (issuedUrl (fetchUser openId accessToken sessionKey t))
        ("&openid=" ++ openId) ∧
    containsStr (issuedUrl (fetchUser openId accessToken sessionKey t))
        ("&signature=" ++ utilityService.sign "" sessionKey) ∧
    containsStr (issuedUrl (fetchUser openId accessToken sessionKey t))
        "&sig_method=hmac_sha256" := by
  refine ⟨rfl, rfl, ?_, ?_, ?_, ?_⟩
  · exact ⟨"https://api.weixin.qq.com/wxa/getuserencryptkey?",
      "&openid=" ++ openId ++ "&signature=" ++ utilityService.sign "" sessionKey
        ++ "&sig_method=hmac_sha256",
      by simp [issuedUrl, fetchUser, ← String.append_assoc]⟩
  · exact ⟨"https://api.weixin.qq.com/wxa/getuserencryptkey?access_token==" ++ accessToken,
      "&signature=" ++ utilityService.sign "" sessionKey ++ "&sig_method=hmac_sha256",
      by simp [issuedUrl, fetchUser, ← String.append_assoc]⟩
  · exact ⟨"https://api.weixin.qq.com/wxa/getuserencryptkey?access_token==" ++ accessToken
        ++ "&openid=" ++ openId,
      "&sig_method=hmac_sha256",
      by simp [issuedUrl, fetchUser, ← String.append_assoc]⟩
  · exact ⟨"https://api.weixin.qq.com/wxa/getuserencryptkey?access_token==" ++ accessToken
        ++ "&openid=" ++ openId ++ "&signature=" ++ utilityService.sign "" sessionKey,
      "",
      by simp [issuedUrl, fetchUser, ← String.append_assoc]⟩

/-- Claim C4: for every endpoint, the query string the operation constructs
matches the literal template of spec §6 exactly, including the doubled `=`
after `access_token` in the two signature-bearing endpoints
(`getuserencryptkey` in `fetchUser`, `checksession` in `verifySession`) and
the single `=` after `access_token` in `getuserphonenumber`. -/
theorem query_strings_match_spec_templates (env : ProcessEnv)
    (accessToken code openId openid sessionKey : String)
    (t1 : TransportOutcome WeChatPayloadToken)
    (t2 : TransportOutcome WeChatPayloadOpenId)
    (t3 : TransportOutcome WeChatPayloadPhone)
    (t4 : TransportOutcome WeChatPayloadEncryptedKey)
    (t5 : TransportOutcome WeChatPayloadBase) :
    issuedUrl (obtainAccessToken env t1)
        = "https://api.weixin.qq.com/cgi-bin/token?"
          ++ specQueryToken (jsShow (VARS env "APP_ID")) (jsShow (VARS env "APP_SECRET")) ∧
    issuedUrl (obtainOpenId env code t2)
        = "https://api.weixin.qq.com/sns/jscode2session?"
          ++ specQueryJscode2session (jsShow (VARS env "APP_ID")) (jsShow (VARS env "APP_SECRET")) code ∧
    issuedUrl (obtainTelephone accessToken code openid t3)
        = "https://api.weixin.qq.com/wxa/business/getuserphonenumber?"
          ++ specQueryGetuserphonenumber accessToken ∧
    issuedUrl (fetchUser openId accessToken sessionKey t4)
        = "https://api.weixin.qq.com/wxa/getuserencryptkey?"
          ++ specQueryGetuserencryptkey accessToken openId (utilityService.sign "" sessionKey) ∧
    issuedUrl (verifySession openId accessToken sessionKey t5)
        = "https://api.weixin.qq.com/wxa/checksession?"
          ++ specQueryChecksession accessToken openId (utilityService.sign "" sessionKey) := by
  refine ⟨?_, ?_, ?_, ?_, ?_⟩ <;>
    simp [issuedUrl, obtainAccessToken, obtainOpenId, obtainTelephone, fetchUser, verifySession,
      specQueryToken, specQueryJscode2session, specQueryGetuserphonenumber,
      specQueryGetuserencryptkey, specQueryChecksession, ← String.append_assoc]

/-- Claim C6: for every call `obtainTelephone(accessToken, code, openid)`, the
operation performs a POST to the phone endpoint with `access_token` as a
query parameter and a JSON body consisting exactly of the fields `code` and
`openid`. -/
theorem obtainTelephone_request_shape (accessToken code openid : String)
    (t : TransportOutcome WeChatPayloadPhone) :
    (obtainTelephone accessToken code openid t).2 =
      [⟨.post,
        "https://api.weixin.qq.com/wxa/business/getuserphonenumber?access_token=" ++ accessToken,
        some [("code", code), ("openid", openid)],
        [("Content-Type", "application/json")]⟩] := rfl

/-- Claim C7: for every OK transport response whose body is a profile payload
with a non-empty key-info list, `fetchUser` returns a payload whose first
key-info entry equals the first entry of the response body's key-info
list. -/
theorem fetchUser_first_key_info_preserved (openId accessToken sessionKey : String)
    (k : WeChatKeyInfo) (rest : List WeChatKeyInfo) (ec : Option Int) (em : Option String) :
    ∃ p, (fetchUser openId accessToken sessionKey
            (.resolve ⟨httpCodes.OK, ⟨some (k :: rest), ec, em⟩⟩)).1 = .ok p
      ∧ ∃ l, p.key_info_list = some l ∧ l.head? = some k :=
  ⟨⟨some (k :: rest), ec, em⟩, rfl, k :: rest, rfl, rfl⟩

/-- Claim C9: for every OK transport response whose body's key-info list is
present but empty, `fetchUser` still resolves successfully and returns the
payload — the unguarded `key_info_list[0]` read yields JavaScript
`undefined` rather than raising, so the empty-list case is not reported as a
failure. -/
theorem fetchUser_empty_key_info_list_resolves (openId accessToken sessionKey : String)
    (ec : Option Int) (em : Option String) :
    (fetchUser openId accessToken sessionKey
        (.resolve ⟨httpCodes.OK, ⟨some [], ec, em⟩⟩)).1 = .ok ⟨some [], ec, em⟩ := rfl

/-- Claim C1 fails on the code: `obtainAccessToken` returns the remote
payload untouched, so a payload whose error code indicates failure (here
`errcode = 40013`, a non-zero remote error code) reaches the caller as a
successful typed result instead of a failure. -/
theorem error_payload_returned_as_success_counterexample :
    (∃ c : Int, (WeChatPayloadToken.mk none none (some 40013) (some "invalid appid")).errcode
        = some c ∧ c ≠ 0) ∧
    (obtainAccessToken ⟨none, none, none⟩
        (.resolve ⟨httpCodes.OK, ⟨none, none, some 40013, some "invalid appid"⟩⟩)).1
      = .ok ⟨none, none, some 40013, some "invalid appid"⟩ :=
  ⟨⟨40013, rfl, by decide⟩, rfl⟩

/-- Claim C1 amended: the operations never inspect the payload's error code —
on a resolved transport response `obtainAccessToken`, `obtainOpenId` and
`obtainTelephone` return the payload unchanged whatever its error code says,
and `fetchUser` does so whenever the status is OK and the key-info list is
present; a payload whose error code indicates failure therefore reaches the
caller as a successful typed result, not as a failure. -/
theorem error_payload_passthrough (env : ProcessEnv)
    (accessToken code openId openid sessionKey : String)
    (s1 s2 s3 : Nat) (p1 : WeChatPayloadToken) (p2 : WeChatPayloadOpenId)
    (p3 : WeChatPayloadPhone) (l : List WeChatKeyInfo) (ec : Option Int)
    (em : Option String) :
    (obtainAccessToken env (.resolve ⟨s1, p1⟩)).1 = .ok p1 ∧
    (obtainOpenId env code (.resolve ⟨s2, p2⟩)).1 = .ok p2 ∧
    (obtainTelephone accessToken code openid (.resolve ⟨s3, p3⟩)).1 = .ok p3 ∧
    (fetchUser openId accessToken sessionKey
        (.resolve ⟨httpCodes.OK, ⟨some l, ec, em⟩⟩)).1 = .ok ⟨some l, ec, em⟩ :=
  ⟨rfl, rfl, rfl, rfl⟩

/-- Claim C3: for every call to `fetchUser`, if the transport status is
anything other than OK, the call fails with the bad-request failure kind even
when the response body is a well-formed profile payload; the conclusion holds
for every body `d` and does not depend on it — the status check precedes any
use of the body. -/
theorem fetchUser_non_ok_status_fails (openId accessToken sessionKey : String)
    (s : Nat) (d : WeChatPayloadEncryptedKey) (hs : s ≠ httpCodes.OK) :
    (fetchUser openId accessToken sessionKey (.resolve ⟨s, d⟩)).1 =
      .error (httpError httpCodes.BAD_REQUEST httpMessages.BAD_REQUEST
        (some (httpError httpCodes.BAD_REQUEST httpMessages.BAD_REQUEST none))) := by
  simp [fetchUser, hs]

/-- Witness for `fetchUser_non_ok_status_fails`: status 404 with a body that
is a well-formed profile payload carrying a non-empty key-info list. -/
theorem fetchUser_non_ok_status_fails_witness :
    (404 ≠ httpCodes.OK) ∧
    (fetchUser "oid-1" "token-1" "sk-1"
        (.resolve ⟨404, ⟨some [⟨"ek", 1⟩], some 0, some "ok"⟩⟩)).1 =
      .error (httpError httpCodes.BAD_REQUEST httpMessages.BAD_REQUEST
        (some (httpError httpCodes.BAD_REQUEST httpMessages.BAD_REQUEST none))) :=
  ⟨by decide, fetchUser_non_ok_status_fails "oid-1" "token-1" "sk-1" 404
      ⟨some [⟨"ek", 1⟩], some 0, some "ok"⟩ (by decide)⟩

/-- Claim C5: every thrown/rejected transport error — and, in `fetchUser`,
an explicit non-OK status — makes the operation fail with the single uniform
bad-request failure kind carrying the original error as its cause, the same
kind for every endpoint; and every operation issues exactly one outbound
request per call, whatever the transport outcome. -/
theorem uniform_bad_request_and_single_request (env : ProcessEnv)
    (accessToken code openId openid sessionKey : String) (e : JsError)
    (s : Nat) (d : WeChatPayloadEncryptedKey)
    (t1 : TransportOutcome WeChatPayloadToken)
    (t2 : TransportOutcome WeChatPayloadOpenId)
    (t3 : TransportOutcome WeChatPayloadPhone)
    (t4 : TransportOutcome WeChatPayloadEncryptedKey)
    (t5 : TransportOutcome WeChatPayloadBase)
    (hs : s ≠ httpCodes.OK) :
    (obtainAccessToken env (.reject e)).1
        = .error (httpError httpCodes.BAD_REQUEST httpMessages.BAD_REQUEST (some e)) ∧
    (obtainOpenId env code (.reject e)).1
        = .error (httpError httpCodes.BAD_REQUEST httpMessages.BAD_REQUEST (some e)) ∧
    (obtainTelephone accessToken code openid (.reject e)).1
        = .error (httpError httpCodes.BAD_REQUEST httpMessages.BAD_REQUEST (some e)) ∧
    (verifySession openId accessToken sessionKey (.reject e)).1
        = .error (httpError httpCodes.BAD_REQUEST httpMessages.BAD_REQUEST (some e)) ∧
    (fetchUser openId accessToken sessionKey (.reject e)).1
        = .error (httpError httpCodes.BAD_REQUEST httpMessages.BAD_REQUEST (some e)) ∧
    (fetchUser openId accessToken sessionKey (.resolve ⟨s, d⟩)).1
        = .error (httpError httpCodes.BAD_REQUEST httpMessages.BAD_REQUEST
            (some (httpError httpCodes.BAD_REQUEST httpMessages.BAD_REQUEST none))) ∧
    (obtainAccessToken env t1).2.length = 1 ∧
    (obtainOpenId env code t2).2.length = 1 ∧
    (obtainTelephone accessToken code openid t3).2.length = 1 ∧
    (verifySession openId accessToken sessionKey t5).2.length = 1 ∧
    (fetchUser openId accessToken sessionKey t4).2.length = 1 := by
  refine ⟨rfl, rfl, rfl, rfl, rfl, ?_, rfl, rfl, rfl, rfl, rfl⟩
  simp [fetchUser, hs]

/-- Witness for `uniform_bad_request_and_single_request`: a concrete network
error and a concrete 500 status. -/
theorem uniform_bad_request_and_single_request_witness :
    (500 ≠ httpCodes.OK) ∧
    ((obtainAccessToken ⟨none, none, none⟩ (.reject (JsError.transport "ECONNREFUSED"))).1
        = .error (httpError httpCodes.BAD_REQUEST httpMessages.BAD_REQUEST
            (some (JsError.transport "ECONNREFUSED"))) ∧
    (obtainOpenId ⟨none, none, none⟩ "code-1" (.reject (JsError.transport "ECONNREFUSED"))).1
        = .error (httpError httpCodes.BAD_REQUEST httpMessages.BAD_REQUEST
            (some (JsError.transport "ECONNREFUSED"))) ∧
    (obtainTelephone "token-1" "code-1" "oid-2" (.reject (JsError.transport "ECONNREFUSED"))).1
        = .error (httpError httpCodes.BAD_REQUEST httpMessages.BAD_REQUEST
            (some (JsError.transport "ECONNREFUSED"))) ∧
    (verifySession "oid-1" "token-1" "sk-1" (.reject (JsError.transport "ECONNREFUSED"))).1
        = .error (httpError httpCodes.BAD_REQUEST httpMessages.BAD_REQUEST
            (some (JsError.transport "ECONNREFUSED"))) ∧
    (fetchUser "oid-1" "token-1" "sk-1" (.reject (JsError.transport "ECONNREFUSED"))).1
        = .error (httpError httpCodes.BAD_REQUEST httpMessages.BAD_REQUEST
            (some (JsError.transport "ECONNREFUSED"))) ∧
    (fetchUser "oid-1" "token-1" "sk-1"
        (.resolve ⟨500, ⟨none, none, none⟩⟩)).1
        = .error (httpError httpCodes.BAD_REQUEST httpMessages.BAD_REQUEST
            (some (httpError httpCodes.BAD_REQUEST httpMessages.BAD_REQUEST none))) ∧
    (obtainAccessToken ⟨none, none, none⟩
        (.reject (JsError.transport "ECONNREFUSED"))).2.length = 1 ∧
    (obtainOpenId ⟨none, none, none⟩ "code-1"
        (.reject (JsError.transport "ECONNREFUSED"))).2.length = 1 ∧
    (obtainTelephone "token-1" "code-1" "oid-2"
        (.reject (JsError.transport "ECONNREFUSED"))).2.length = 1 ∧
    (verifySession "oid-1" "token-1" "sk-1"
        (.reject (JsError.transport "ECONNREFUSED"))).2.length = 1 ∧
    (fetchUser "oid-1" "token-1" "sk-1"
        (.reject (JsError.transport "ECONNREFUSED"))).2.length = 1) :=
  ⟨by decide, uniform_bad_request_and_single_request ⟨none, none, none⟩
      "token-1" "code-1" "oid-1" "oid-2" "sk-1" (JsError.transport "ECONNREFUSED")
      500 ⟨none, none, none⟩
      (.reject (JsError.transport "ECONNREFUSED"))
      (.reject (JsError.transport "ECONNREFUSED"))
      (.reject (JsError.transport "ECONNREFUSED"))
      (.reject (JsError.transport "ECONNREFUSED"))
      (.reject (JsError.transport "ECONNREFUSED"))
      (by decide)⟩

/-- Claim C8: the configuration object `VARS` of `src/modules/vars.js`
defines no `APP_ID` or `APP_SECRET` field (only `APP_CONTEXT` and the
`IOT_*` variables), so for every call and every process environment,
`obtainAccessToken` and `obtainOpenId` interpolate the undefined value —
rendered as the literal text `undefined` — into the `appid` and `secret`
query parameters of the request URL. -/
theorem vars_missing_appid_renders_undefined (env : ProcessEnv) (code : String)
    (t1 : TransportOutcome WeChatPayloadToken)
    (t2 : TransportOutcome WeChatPayloadOpenId) :
    VARS env "APP_ID" = none ∧ VARS env "APP_SECRET" = none ∧
    issuedUrl (obtainAccessToken env t1)
        = "https://api.weixin.qq.com/cgi-bin/token?grant_type=client_credential&appid=undefined&secret=undefined" ∧
    issuedUrl (obtainOpenId env code t2)
        = "https://api.weixin.qq.com/sns/jscode2session?appid=undefined&secret=undefined&js_code="
          ++ code ++ "&grant_type=authorization_code" := by
  refine ⟨rfl, rfl, ?_, ?_⟩ <;>
    simp [issuedUrl, obtainAccessToken, obtainOpenId, VARS, jsShow, ← String.append_assoc]

/-- Claim C10: for every string key `k`, `sign('', k)` is deterministic — two
calls with the same key produce identical output — and consequently the
signatures computed inside `fetchUser` and `verifySession` for the same
session key are equal: one and the same digest value appears in both request
URLs. -/
theorem sign_deterministic_and_shared (k openId accessToken sessionKey : String)
    (t4 : TransportOutcome WeChatPayloadEncryptedKey)
    (t5 : TransportOutcome WeChatPayloadBase) :
    utilityService.sign "" k = utilityService.sign "" k ∧
    ∃ sig, sig = utilityService.sign "" sessionKey ∧
      issuedUrl (fetchUser openId accessToken sessionKey t4)
        = "https://api.weixin.qq.com/wxa/getuserencryptkey?access_token==" ++ accessToken
          ++ "&openid=" ++ openId ++ "&signature=" ++ sig ++ "&sig_method=hmac_sha256" ∧
      issuedUrl (verifySession openId accessToken sessionKey t5)
        = "https://api.weixin.qq.com/wxa/checksession?access_token==" ++ accessToken
          ++ "&openid=" ++ openId ++ "&signature=" ++ sig ++ "&sig_method=hmac_sha256" :=
  ⟨rfl, utilityService.sign "" sessionKey, rfl, rfl, rfl⟩

end WeChatCloud
